import Mathlib

/-!
Verification development for the Swarmathon gripper plugin
(`src/gazebo_plugins/src/GripperPlugin/GripperPlugin.cpp`).

The plugin loads configuration from an SDF document, builds a
`GripperManager` holding three PID controllers, and on each world-update
poll applies force commands to the wrist and two finger joints.

Real-valued quantities (angles, forces, times, gains) are embedded as
rationals `ℚ` so that all definitions are executable and comparisons are
decidable.  `PIDController` and `GripperManager` live in other translation
units of the repository; they are modelled from the specification
(sections 4.1 and 4.2) and marked as such.  Everything else is translated
directly from `GripperPlugin.cpp`.
-/

/-- PID controller settings, mirroring `PIDController::PIDSettings`
(gains, timestep, output force clamp). -/
structure PIDSettings where
  Kp : ℚ
  Ki : ℚ
  Kd : ℚ
  dt : ℚ
  min : ℚ
  max : ℚ
  deriving DecidableEq, Repr

/-- Modelled from the spec: §4.1 gives the per-joint controller an integral
accumulator and a previous-error value, both initialised to zero;
`PIDController`'s source is not part of this translation unit. -/
structure PIDState where
  integral : ℚ
  prevError : ℚ
  deriving DecidableEq, Repr

/-- The zero-initialised controller state. -/
def PIDState.init : PIDState := ⟨0, 0⟩

/-- Clamp `x` to the interval `[lo, hi]`. -/
def clamp (x lo hi : ℚ) : ℚ :=
  if x < lo then lo else if hi < x then hi else x

/-- Modelled from the spec: §4.1 `compute(setpoint, measurement) → force`:
error, unconditional integral accumulation, derivative from previous error,
raw PID sum, output clamped to `[min, max]`, previous error persisted.
`PIDController::compute`'s source is not part of this translation unit. -/
def PIDController.compute (s : PIDSettings) (st : PIDState)
    (setpoint measurement : ℚ) : ℚ × PIDState :=
  let error := setpoint - measurement
  let integral := st.integral + error * s.dt
  let derivative := (error - st.prevError) / s.dt
  let raw := s.Kp * error + s.Ki * integral + s.Kd * derivative
  (clamp raw s.min s.max, ⟨integral, error⟩)

/-- Joint names stored by the manager, mirroring
`GripperManager::GripperJointNames`. -/
structure GripperJointNames where
  wristJointName : String
  leftFingerJointName : String
  rightFingerJointName : String
  deriving DecidableEq, Repr

/-- A triple of joint angles, mirroring `GripperManager::GripperState`. -/
structure GripperState where
  wristAngle : ℚ
  leftFingerAngle : ℚ
  rightFingerAngle : ℚ
  deriving DecidableEq, Repr

/-- A triple of joint forces, mirroring `GripperManager::GripperForces`. -/
structure GripperForces where
  wristForce : ℚ
  leftFingerForce : ℚ
  rightFingerForce : ℚ
  deriving DecidableEq, Repr

/-- Modelled from the spec: §4.2/§2 — the manager owns three PID
controllers (wrist, left finger, right finger); the single finger settings
object parameterises both finger controllers.  `GripperManager`'s source is
not part of this translation unit. -/
structure GripperManager where
  names : GripperJointNames
  wristSettings : PIDSettings
  fingerSettings : PIDSettings
  wristState : PIDState
  leftFingerState : PIDState
  rightFingerState : PIDState
  deriving DecidableEq, Repr

/-- Is a settings object valid in the sense of §4.2: `dt > 0` and
`min ≤ max`? -/
def PIDSettings.validB (s : PIDSettings) : Bool :=
  decide (0 < s.dt) && decide (s.min ≤ s.max)

/-- Errors on the fatal configuration paths (`exit(1)` in the source),
each carrying the offending tag, joint name or value that the
error-level diagnostic cites. -/
inductive LoadError where
  | missingTag (tag : String)
  | unresolvableJoint (jointName : String)
  | invalidUpdateRate (rate : ℚ)
  | invalidDebugPeriod (period : ℚ)
  | invalidPIDTag (tag : String)
  | invalidSettings (s : PIDSettings)
  deriving DecidableEq, Repr

/-- Modelled from the spec: §4.2 construction contract — build the three
controllers from the wrist settings and the (shared) finger settings,
failing fast when either settings object is invalid (`dt ≤ 0` or
`min > max`).  The constructor's source is not part of this translation
unit. -/
def GripperManager.create (names : GripperJointNames)
    (wristSettings fingerSettings : PIDSettings) :
    Except LoadError GripperManager :=
  if !wristSettings.validB then
    .error (.invalidSettings wristSettings)
  else if !fingerSettings.validB then
    .error (.invalidSettings fingerSettings)
  else
    .ok ⟨names, wristSettings, fingerSettings,
         PIDState.init, PIDState.init, PIDState.init⟩

/-- Modelled from the spec: §4.2 `getForces(desired, current)` — one
`compute` per joint, the finger controllers sharing the finger settings;
returns the force triple and the manager with the three updated controller
states.  `GripperManager::getForces`' source is not part of this
translation unit. -/
def GripperManager.getForces (m : GripperManager)
    (desired current : GripperState) : GripperForces × GripperManager :=
  let wrist := PIDController.compute m.wristSettings m.wristState
    desired.wristAngle current.wristAngle
  let left := PIDController.compute m.fingerSettings m.leftFingerState
    desired.leftFingerAngle current.leftFingerAngle
  let right := PIDController.compute m.fingerSettings m.rightFingerState
    desired.rightFingerAngle current.rightFingerAngle
  (⟨wrist.1, left.1, right.1⟩,
   { m with wristState := wrist.2, leftFingerState := left.2,
            rightFingerState := right.2 })

/-- The `<debug>` element of the SDF document: its optional nested
`<printToConsole>` and `<printDelayInSeconds>` tags. -/
structure DebugElement where
  printToConsole : Option String
  printDelayInSeconds : Option ℚ
  deriving DecidableEq, Repr

/-- The SDF configuration document attached to the model, as the set of
tags `GripperPlugin` reads: each field is `none` when the tag is absent
(`sdf->HasElement` false) and `some v` when present with value `v`. -/
structure SdfConfig where
  updateRate : Option ℚ
  wristJoint : Option String
  leftFingerJoint : Option String
  rightFingerJoint : Option String
  wristTopic : Option String
  fingerTopic : Option String
  wristPID : Option (ℚ × ℚ × ℚ)
  fingerPID : Option (ℚ × ℚ × ℚ)
  wristForceLimits : Option (ℚ × ℚ)
  fingerForceLimits : Option (ℚ × ℚ)
  debug : Option DebugElement
  deriving DecidableEq, Repr

/-- The Gazebo model the plugin is attached to: its name and the names of
the joints that `model->GetJoint` can resolve. -/
structure GzModel where
  name : String
  joints : List String
  deriving DecidableEq, Repr

/-- `GripperPlugin::loadDebugMode`: `isDebuggingModeActive` defaults to
`false`; when `<debug><printToConsole>true</printToConsole></debug>` is
present, debugging is active and `<printDelayInSeconds>` is read —
missing defaults to `3.0`, a value `≤ 0` is fatal.  When debugging is not
activated the delay tag is never read and `debugUpdatePeriod` is left
unset (`none`).  Unrecognised `printToConsole` values only warn. -/
def loadDebugMode (sdf : SdfConfig) : Except LoadError (Bool × Option ℚ) :=
  match sdf.debug with
  | none => .ok (false, none)
  | some debug =>
    match debug.printToConsole with
    | none => .ok (false, none)
    | some debugString =>
      if debugString = "true" then
        match debug.printDelayInSeconds with
        | some debugUpdatePeriod =>
          if debugUpdatePeriod ≤ 0 then
            .error (.invalidDebugPeriod debugUpdatePeriod)
          else
            .ok (true, some debugUpdatePeriod)
        | none => .ok (true, some 3)
      else
        .ok (false, none)

/-- `GripperPlugin::loadUpdatePeriod`: a missing `<updateRate>` tag
defaults the rate to `1000.0`; a present rate `≤ 0` is fatal; the update
period is `1.0 / updateRate`. -/
def loadUpdatePeriod (sdf : SdfConfig) : Except LoadError ℚ :=
  match sdf.updateRate with
  | none => .ok (1 / 1000)
  | some updateRate =>
    if updateRate ≤ 0 then
      .error (.invalidUpdateRate updateRate)
    else
      .ok (1 / updateRate)

/-- `GripperPlugin::loadSubscriptionTopic`: returns the topic string under
`topicTag`; a missing tag is fatal, the diagnostic citing the tag. -/
def loadSubscriptionTopic (topicTag : String) (tagValue : Option String) :
    Except LoadError String :=
  match tagValue with
  | some topic => .ok topic
  | none => .error (.missingTag topicTag)

/-- `GripperPlugin::loadJoint`: reads the joint name under `jointTag` and
resolves it on the model; a missing tag is fatal citing the tag, an
unresolvable joint is fatal citing the joint name. -/
def loadJoint (model : GzModel) (jointTag : String)
    (tagValue : Option String) : Except LoadError String :=
  match tagValue with
  | some jointName =>
    if jointName ∈ model.joints then .ok jointName
    else .error (.unresolvableJoint jointName)
  | none => .error (.missingTag jointTag)

/-- The `<PIDTag>PID` element for `loadPIDSettings`. -/
def SdfConfig.pidElement (sdf : SdfConfig) (PIDTag : String) :
    Option (ℚ × ℚ × ℚ) :=
  if PIDTag = "wrist" then sdf.wristPID else sdf.fingerPID

/-- The `<PIDTag>ForceLimits` element for `loadPIDSettings`. -/
def SdfConfig.forceLimitsElement (sdf : SdfConfig) (PIDTag : String) :
    Option (ℚ × ℚ) :=
  if PIDTag = "wrist" then sdf.wristForceLimits else sdf.fingerForceLimits

/-- `GripperPlugin::loadPIDSettings`: a `PIDTag` other than `"wrist"` or
`"finger"` is fatal; a missing `<...PID>` tag defaults the gains to
`(2.5, 0.0, 0.0)`; a missing `<...ForceLimits>` tag defaults the clamp to
`(-10.0, 10.0)`; `dt` is the plugin's update period. -/
def loadPIDSettings (sdf : SdfConfig) (updatePeriod : ℚ) (PIDTag : String) :
    Except LoadError PIDSettings :=
  if PIDTag ≠ "wrist" ∧ PIDTag ≠ "finger" then
    .error (.invalidPIDTag PIDTag)
  else
    let pid :=
      match sdf.pidElement PIDTag with
      | none => (5/2, 0, 0)
      | some v => v
    let forceLimits :=
      match sdf.forceLimitsElement PIDTag with
      | none => (-10, 10)
      | some v => v
    .ok { Kp := pid.1, Ki := pid.2.1, Kd := pid.2.2, dt := updatePeriod,
          min := forceLimits.1, max := forceLimits.2 }

/-- The data a successful `GripperPlugin::Load` leaves behind for the
update handler. -/
structure LoadedPlugin where
  isDebuggingModeActive : Bool
  debugUpdatePeriod : Option ℚ
  updatePeriod : ℚ
  wristJointName : String
  leftFingerJointName : String
  rightFingerJointName : String
  manager : GripperManager
  wristTopic : String
  fingerTopic : String
  deriving DecidableEq, Repr

/-- `GripperPlugin::Load`, in source order: debug mode, update period, the
three joints, the two PID settings, the `GripperManager`, the two
subscription topics.  Any fatal step (`exit(1)` in the source) aborts the
whole load, so no partially configured plugin results. -/
def GripperPlugin.Load (model : GzModel) (sdf : SdfConfig) :
    Except LoadError LoadedPlugin := do
  let dbg ← loadDebugMode sdf
  let updatePeriod ← loadUpdatePeriod sdf
  let wristJoint ← loadJoint model "wristJoint" sdf.wristJoint
  let leftFingerJoint ← loadJoint model "leftFingerJoint" sdf.leftFingerJoint
  let rightFingerJoint ←
    loadJoint model "rightFingerJoint" sdf.rightFingerJoint
  let jointNames : GripperJointNames :=
    ⟨model.name ++ "_" ++ wristJoint,
     model.name ++ "_" ++ leftFingerJoint,
     model.name ++ "_" ++ rightFingerJoint⟩
  let wristPID ← loadPIDSettings sdf updatePeriod "wrist"
  let fingerPID ← loadPIDSettings sdf updatePeriod "finger"
  let gripperManager ← GripperManager.create jointNames wristPID fingerPID
  let wristTopic ← loadSubscriptionTopic "wristTopic" sdf.wristTopic
  let fingerTopic ← loadSubscriptionTopic "fingerTopic" sdf.fingerTopic
  .ok { isDebuggingModeActive := dbg.1, debugUpdatePeriod := dbg.2,
        updatePeriod := updatePeriod,
        wristJointName := wristJoint,
        leftFingerJointName := leftFingerJoint,
        rightFingerJointName := rightFingerJoint,
        manager := gripperManager,
        wristTopic := wristTopic, fingerTopic := fingerTopic }

/-- The mutable plugin state read and written by
`GripperPlugin::updateWorldEventHandler` and the two subscriber
handlers. -/
structure PluginState where
  isDebuggingModeActive : Bool
  updatePeriod : ℚ
  debugUpdatePeriod : ℚ
  previousUpdateTime : ℚ
  previousDebugUpdateTime : ℚ
  manager : GripperManager
  desiredWristAngle : ℚ
  desiredFingerAngle : ℚ
  deriving DecidableEq, Repr

/-- The current joint angles read from the three joints
(`joint->GetAngle(0).Radian()`) at the start of an update poll. -/
structure JointReadings where
  wristAngle : ℚ
  leftFingerAngle : ℚ
  rightFingerAngle : ℚ
  deriving DecidableEq, Repr

/-- The observable outcome of one `updateWorldEventHandler` poll: the
plugin state afterwards, the desired state handed to the manager and the
forces applied to the joints (`none` when the early return was taken), and
whether the debug snapshot was printed. -/
structure UpdateResult where
  state : PluginState
  desiredPassed : Option GripperState
  appliedForces : Option GripperForces
  debugPrinted : Bool
  deriving DecidableEq, Repr

/-- `GripperPlugin::updateWorldEventHandler`: return early unless
`currentTime - previousUpdateTime ≥ updatePeriod`; otherwise advance
`previousUpdateTime` to `currentTime`, build the current state from the
joint readings and the desired state from the two latest published angles
(the finger opening split as `θ/2` and `-θ/2`), call
`GripperManager::getForces` once and apply the returned forces; finally,
when `currentTime - previousDebugUpdateTime ≥ debugUpdatePeriod`, advance
`previousDebugUpdateTime` and print the snapshot if debugging is
active. -/
def updateWorldEventHandler (p : PluginState) (currentTime : ℚ)
    (joints : JointReadings) : UpdateResult :=
  if currentTime - p.previousUpdateTime < p.updatePeriod then
    { state := p, desiredPassed := none, appliedForces := none,
      debugPrinted := false }
  else
    let currentState : GripperState :=
      ⟨joints.wristAngle, joints.leftFingerAngle, joints.rightFingerAngle⟩
    let desiredState : GripperState :=
      { wristAngle := p.desiredWristAngle,
        leftFingerAngle := p.desiredFingerAngle / 2,
        rightFingerAngle := -p.desiredFingerAngle / 2 }
    let commandForces := p.manager.getForces desiredState currentState
    let debugDue :=
      p.debugUpdatePeriod ≤ currentTime - p.previousDebugUpdateTime
    { state :=
        { p with
          previousUpdateTime := currentTime,
          previousDebugUpdateTime :=
            if debugDue then currentTime else p.previousDebugUpdateTime,
          manager := commandForces.2 },
      desiredPassed := some desiredState,
      appliedForces := some commandForces.1,
      debugPrinted := debugDue && p.isDebuggingModeActive }

/-- `GripperPlugin::setWristAngleHandler`: store the published wrist angle
as the latest desired wrist angle. -/
def setWristAngleHandler (p : PluginState) (msg : ℚ) : PluginState :=
  { p with desiredWristAngle := msg }

/-- `GripperPlugin::setFingerAngleHandler`: store the published total
finger opening as the latest desired finger angle. -/
def setFingerAngleHandler (p : PluginState) (msg : ℚ) : PluginState :=
  { p with desiredFingerAngle := msg }

/-! ### Shared sample values for witnesses and counterexamples -/

/-- Sample joint names. -/
def sampleNames : GripperJointNames := ⟨"r_wrist", "r_left", "r_right"⟩

/-- Sample valid PID settings. -/
def sampleSettings : PIDSettings :=
  { Kp := 1, Ki := 0, Kd := 0, dt := 1, min := -10, max := 10 }

/-- Sample manager with zero-initialised controller state. -/
def sampleManager : GripperManager :=
  ⟨sampleNames, sampleSettings, sampleSettings,
   PIDState.init, PIDState.init, PIDState.init⟩

/-- Sample joint readings. -/
def sampleJoints : JointReadings := ⟨0, 0, 0⟩

/-! ### Helper lemmas -/

/-- The clamp of any value to a nonempty interval lies in the interval. -/
theorem clamp_mem_Icc (x lo hi : ℚ) (h : lo ≤ hi) :
    lo ≤ clamp x lo hi ∧ clamp x lo hi ≤ hi := by
  unfold clamp
  split_ifs with h1 h2 <;> constructor <;> linarith

/-! ### Claims -/

/-- C5: for every `PIDSettings` with `dt > 0` and `min ≤ max` and every
setpoint/measurement pair, the per-joint `compute` returns a force within
`[min, max]` (the raw PID sum is clamped to the configured output
range). -/
theorem C5_compute_output_clamped (s : PIDSettings) (st : PIDState)
    (setpoint measurement : ℚ) (hdt : 0 < s.dt) (hmm : s.min ≤ s.max) :
    s.min ≤ (PIDController.compute s st setpoint measurement).1 ∧
    (PIDController.compute s st setpoint measurement).1 ≤ s.max := by
  unfold PIDController.compute
  exact clamp_mem_Icc _ _ _ hmm

/-- Witness for C5 at concrete settings and inputs. -/
theorem C5_compute_output_clamped_witness :
    sampleSettings.min ≤
      (PIDController.compute sampleSettings PIDState.init 1 0).1 ∧
    (PIDController.compute sampleSettings PIDState.init 1 0).1 ≤
      sampleSettings.max :=
  C5_compute_output_clamped sampleSettings PIDState.init 1 0
    (by norm_num [sampleSettings]) (by norm_num [sampleSettings])

/-- C1: on a control-gate fire, the desired state passed to the manager
has `leftFingerAngle = θ/2` and `rightFingerAngle = -θ/2` for the last
published total finger opening `θ`, and `wristAngle` equal to the last
published wrist angle; the applied forces are exactly the manager's output
on that desired state. -/
theorem C1_desired_state_mirrors_finger_opening (p : PluginState)
    (w θ t : ℚ) (j : JointReadings)
    (hfire : p.updatePeriod ≤ t - p.previousUpdateTime) :
    (updateWorldEventHandler (setFingerAngleHandler
        (setWristAngleHandler p w) θ) t j).desiredPassed =
      some ⟨w, θ / 2, -θ / 2⟩ ∧
    (updateWorldEventHandler (setFingerAngleHandler
        (setWristAngleHandler p w) θ) t j).appliedForces =
      some (p.manager.getForces ⟨w, θ / 2, -θ / 2⟩
          ⟨j.wristAngle, j.leftFingerAngle, j.rightFingerAngle⟩).1 := by
  unfold updateWorldEventHandler setFingerAngleHandler setWristAngleHandler
  rw [if_neg (not_lt.mpr hfire)]
  exact ⟨rfl, rfl⟩

/-- Sample plugin state for witnesses. -/
def samplePlugin : PluginState :=
  { isDebuggingModeActive := true, updatePeriod := 1, debugUpdatePeriod := 3,
    previousUpdateTime := 0, previousDebugUpdateTime := 0,
    manager := sampleManager, desiredWristAngle := 0,
    desiredFingerAngle := 0 }

/-- Witness for C1 at a concrete state, angles and poll time. -/
theorem C1_desired_state_mirrors_finger_opening_witness :
    (updateWorldEventHandler (setFingerAngleHandler
        (setWristAngleHandler samplePlugin 1) 2) 5 sampleJoints).desiredPassed =
      some ⟨1, 2 / 2, -2 / 2⟩ ∧
    (updateWorldEventHandler (setFingerAngleHandler
        (setWristAngleHandler samplePlugin 1) 2) 5 sampleJoints).appliedForces =
      some (samplePlugin.manager.getForces ⟨1, 2 / 2, -2 / 2⟩
          ⟨sampleJoints.wristAngle, sampleJoints.leftFingerAngle,
           sampleJoints.rightFingerAngle⟩).1 :=
  C1_desired_state_mirrors_finger_opening samplePlugin 1 2 5 sampleJoints
    (by norm_num [samplePlugin])

/-- C2: the control gate fires exactly on polls with
`currentTime - previousUpdateTime ≥ updatePeriod`; on fire the force
computation runs once (forces and updated manager both come from the
single `getForces` call) and `previousUpdateTime` is set to the current
time; on polls where it does not fire nothing is computed, mutated or
applied. -/
theorem C2_control_gate (p : PluginState) (t : ℚ) (j : JointReadings) :
    ((updateWorldEventHandler p t j).appliedForces.isSome ↔
      p.updatePeriod ≤ t - p.previousUpdateTime) ∧
    (p.updatePeriod ≤ t - p.previousUpdateTime →
      (updateWorldEventHandler p t j).state.previousUpdateTime = t ∧
      (updateWorldEventHandler p t j).state.manager =
        (p.manager.getForces
          ⟨p.desiredWristAngle, p.desiredFingerAngle / 2,
           -p.desiredFingerAngle / 2⟩
          ⟨j.wristAngle, j.leftFingerAngle, j.rightFingerAngle⟩).2 ∧
      (updateWorldEventHandler p t j).appliedForces =
        some (p.manager.getForces
          ⟨p.desiredWristAngle, p.desiredFingerAngle / 2,
           -p.desiredFingerAngle / 2⟩
          ⟨j.wristAngle, j.leftFingerAngle, j.rightFingerAngle⟩).1) ∧
    (t - p.previousUpdateTime < p.updatePeriod →
      updateWorldEventHandler p t j =
        { state := p, desiredPassed := none, appliedForces := none,
          debugPrinted := false }) := by
  refine ⟨?_, ?_, ?_⟩
  · unfold updateWorldEventHandler
    split_ifs with h
    · simp [not_le.mpr h]
    · simp [not_lt.mp h]
  · intro hfire
    unfold updateWorldEventHandler
    rw [if_neg (not_lt.mpr hfire)]
    exact ⟨rfl, rfl, rfl⟩
  · intro hskip
    unfold updateWorldEventHandler
    rw [if_pos hskip]

/-- Witness for C2: at a concrete state and poll time the gate condition
holds and the fire effects follow. -/
theorem C2_control_gate_witness :
    (updateWorldEventHandler samplePlugin 5 sampleJoints).state.previousUpdateTime = 5 ∧
    (updateWorldEventHandler samplePlugin 5 sampleJoints).state.manager =
      (samplePlugin.manager.getForces
        ⟨samplePlugin.desiredWristAngle, samplePlugin.desiredFingerAngle / 2,
         -samplePlugin.desiredFingerAngle / 2⟩
        ⟨sampleJoints.wristAngle, sampleJoints.leftFingerAngle,
         sampleJoints.rightFingerAngle⟩).2 ∧
    (updateWorldEventHandler samplePlugin 5 sampleJoints).appliedForces =
      some (samplePlugin.manager.getForces
        ⟨samplePlugin.desiredWristAngle, samplePlugin.desiredFingerAngle / 2,
         -samplePlugin.desiredFingerAngle / 2⟩
        ⟨sampleJoints.wristAngle, sampleJoints.leftFingerAngle,
         sampleJoints.rightFingerAngle⟩).1 :=
  (C2_control_gate samplePlugin 5 sampleJoints).2.1 (by norm_num [samplePlugin])

/-- A plugin state whose debug period has long expired (three seconds of
debt) while the control gate is not yet due. -/
def staleDebugPlugin : PluginState :=
  { isDebuggingModeActive := true, updatePeriod := 1, debugUpdatePeriod := 1,
    previousUpdateTime := 0, previousDebugUpdateTime := -3,
    manager := sampleManager, desiredWristAngle := 0,
    desiredFingerAngle := 0 }

/-- C3 counterexample: on a poll at time `0` the debug period (`1`) has
been exceeded (`0 - (-3) = 3 ≥ 1`) and debugging is active, yet — because
the control gate (`period 1`, elapsed `0`) does not fire — no snapshot is
printed and `previousDebugUpdateTime` does not advance: the debug gate is
not independent of the control gate. -/
theorem C3_counterexample :
    staleDebugPlugin.isDebuggingModeActive = true ∧
    staleDebugPlugin.debugUpdatePeriod ≤
      0 - staleDebugPlugin.previousDebugUpdateTime ∧
    0 - staleDebugPlugin.previousUpdateTime < staleDebugPlugin.updatePeriod ∧
    (updateWorldEventHandler staleDebugPlugin 0 sampleJoints).debugPrinted =
      false ∧
    (updateWorldEventHandler staleDebugPlugin 0
        sampleJoints).state.previousDebugUpdateTime =
      staleDebugPlugin.previousDebugUpdateTime := by
  refine ⟨rfl, by norm_num [staleDebugPlugin], by norm_num [staleDebugPlugin],
    ?_, ?_⟩ <;>
  · norm_num [updateWorldEventHandler, staleDebugPlugin]

/-- C3 (amended): the debug gate is only evaluated on polls where the
control gate fires.  On such polls it fires exactly when
`currentTime - previousDebugUpdateTime ≥ debugUpdatePeriod`, advancing
`previousDebugUpdateTime` to the current time and printing the snapshot
precisely when debugging is active; on polls where the control gate does
not fire, the debug gate neither prints nor advances, regardless of how
overdue it is. -/
theorem C3_debug_gate_nested_in_control_gate (p : PluginState) (t : ℚ)
    (j : JointReadings) :
    (t - p.previousUpdateTime < p.updatePeriod →
      (updateWorldEventHandler p t j).debugPrinted = false ∧
      (updateWorldEventHandler p t j).state.previousDebugUpdateTime =
        p.previousDebugUpdateTime) ∧
    (p.updatePeriod ≤ t - p.previousUpdateTime →
      p.debugUpdatePeriod ≤ t - p.previousDebugUpdateTime →
      (updateWorldEventHandler p t j).state.previousDebugUpdateTime = t ∧
      (updateWorldEventHandler p t j).debugPrinted =
        p.isDebuggingModeActive) ∧
    (p.updatePeriod ≤ t - p.previousUpdateTime →
      t - p.previousDebugUpdateTime < p.debugUpdatePeriod →
      (updateWorldEventHandler p t j).state.previousDebugUpdateTime =
        p.previousDebugUpdateTime ∧
      (updateWorldEventHandler p t j).debugPrinted = false) := by
  refine ⟨?_, ?_, ?_⟩
  · intro hskip
    unfold updateWorldEventHandler
    rw [if_pos hskip]
    exact ⟨rfl, rfl⟩
  · intro hfire hdue
    unfold updateWorldEventHandler
    rw [if_neg (not_lt.mpr hfire)]
    refine ⟨?_, ?_⟩
    · simp only [if_pos hdue]
    · simp only [decide_eq_true hdue, Bool.true_and]
  · intro hfire hnotdue
    unfold updateWorldEventHandler
    rw [if_neg (not_lt.mpr hfire)]
    refine ⟨?_, ?_⟩
    · simp only [if_neg (not_le.mpr hnotdue)]
    · simp only [decide_eq_false (not_le.mpr hnotdue), Bool.false_and]

/-- Witness for the amended C3: at a concrete state where both the
control gate and the debug gate are due, the snapshot is printed and the
debug clock advances. -/
theorem C3_debug_gate_nested_in_control_gate_witness :
    (updateWorldEventHandler samplePlugin 5
        sampleJoints).state.previousDebugUpdateTime = 5 ∧
    (updateWorldEventHandler samplePlugin 5 sampleJoints).debugPrinted =
      samplePlugin.isDebuggingModeActive :=
  (C3_debug_gate_nested_in_control_gate samplePlugin 5 sampleJoints).2.1
    (by norm_num [samplePlugin]) (by norm_num [samplePlugin])

/-- An SDF document with every tag absent. -/
def emptySdf : SdfConfig :=
  { updateRate := none, wristJoint := none, leftFingerJoint := none,
    rightFingerJoint := none, wristTopic := none, fingerTopic := none,
    wristPID := none, fingerPID := none, wristForceLimits := none,
    fingerForceLimits := none, debug := none }

/-- C6: a missing `updateRate` tag defaults the rate to 1000 Hz (period
`1/1000`); a present rate `≤ 0` is fatal, the diagnostic citing the
invalid rate; otherwise the period is `1/rate`. -/
theorem C6_update_rate_loading (sdf : SdfConfig) (r : ℚ) :
    (sdf.updateRate = none → loadUpdatePeriod sdf = .ok (1 / 1000)) ∧
    (sdf.updateRate = some r → r ≤ 0 →
      loadUpdatePeriod sdf = .error (.invalidUpdateRate r)) ∧
    (sdf.updateRate = some r → 0 < r →
      loadUpdatePeriod sdf = .ok (1 / r)) := by
  refine ⟨?_, ?_, ?_⟩
  · intro h
    unfold loadUpdatePeriod
    rw [h]
  · intro h hneg
    unfold loadUpdatePeriod
    rw [h]
    simp only [if_pos hneg]
  · intro h hpos
    unfold loadUpdatePeriod
    rw [h]
    simp only [if_neg (not_le.mpr hpos)]

/-- Witness for C6: `updateRate = -5` is rejected citing the rate, and the
missing-tag default yields period `1/1000`. -/
theorem C6_update_rate_loading_witness :
    loadUpdatePeriod { emptySdf with updateRate := some (-5) } =
      .error (.invalidUpdateRate (-5)) ∧
    loadUpdatePeriod emptySdf = .ok (1 / 1000) :=
  ⟨(C6_update_rate_loading { emptySdf with updateRate := some (-5) }
      (-5)).2.1 rfl (by norm_num),
   (C6_update_rate_loading emptySdf (-5)).1 rfl⟩

/-- C7: a missing `wristPID`/`fingerPID` tag defaults the gains to
`Kp = 2.5, Ki = 0, Kd = 0`; a missing `wristForceLimits`/
`fingerForceLimits` tag defaults the clamp to `min = -10, max = 10`; in
all these cases loading continues (the result is `ok`, not fatal). -/
theorem C7_pid_defaults (sdf : SdfConfig) (up : ℚ) :
    (sdf.wristPID = none → ∃ s, loadPIDSettings sdf up "wrist" = .ok s ∧
      s.Kp = 5/2 ∧ s.Ki = 0 ∧ s.Kd = 0) ∧
    (sdf.fingerPID = none → ∃ s, loadPIDSettings sdf up "finger" = .ok s ∧
      s.Kp = 5/2 ∧ s.Ki = 0 ∧ s.Kd = 0) ∧
    (sdf.wristForceLimits = none →
      ∃ s, loadPIDSettings sdf up "wrist" = .ok s ∧
        s.min = -10 ∧ s.max = 10) ∧
    (sdf.fingerForceLimits = none →
      ∃ s, loadPIDSettings sdf up "finger" = .ok s ∧
        s.min = -10 ∧ s.max = 10) := by
  refine ⟨?_, ?_, ?_, ?_⟩ <;> intro h <;>
    · unfold loadPIDSettings SdfConfig.pidElement SdfConfig.forceLimitsElement
      rw [if_neg (by decide)]
      first
      | rw [if_pos rfl, if_pos rfl, h]
      | rw [if_neg (by decide), if_neg (by decide), h]
      first
      | exact ⟨_, rfl, rfl, rfl, rfl⟩
      | exact ⟨_, rfl, rfl, rfl⟩

/-- Witness for C7: with all tags absent, the finger settings carry the
default gains and the default force limits. -/
theorem C7_pid_defaults_witness :
    (∃ s, loadPIDSettings emptySdf 1 "finger" = .ok s ∧
      s.Kp = 5/2 ∧ s.Ki = 0 ∧ s.Kd = 0) ∧
    (∃ s, loadPIDSettings emptySdf 1 "finger" = .ok s ∧
      s.min = -10 ∧ s.max = 10) :=
  ⟨(C7_pid_defaults emptySdf 1).2.1 rfl,
   (C7_pid_defaults emptySdf 1).2.2.2 rfl⟩

/-- C8: `debug/printDelayInSeconds` is only consulted when debug printing
is active (`printToConsole = "true"`): with any other (or no) value the
load succeeds inactive with the delay left unset, whatever the delay tag
holds.  When active, a missing delay tag defaults to `3.0` seconds and a
present delay `≤ 0` is fatal, the diagnostic citing the value; a positive
delay is kept. -/
theorem C8_debug_delay_only_when_active (sdf : SdfConfig)
    (d : DebugElement) (str : String) (q : ℚ) :
    (sdf.debug = none → loadDebugMode sdf = .ok (false, none)) ∧
    (sdf.debug = some d → d.printToConsole = none →
      loadDebugMode sdf = .ok (false, none)) ∧
    (sdf.debug = some d → d.printToConsole = some str → str ≠ "true" →
      loadDebugMode sdf = .ok (false, none)) ∧
    (sdf.debug = some d → d.printToConsole = some "true" →
      d.printDelayInSeconds = none → loadDebugMode sdf = .ok (true, some 3)) ∧
    (sdf.debug = some d → d.printToConsole = some "true" →
      d.printDelayInSeconds = some q → q ≤ 0 →
      loadDebugMode sdf = .error (.invalidDebugPeriod q)) ∧
    (sdf.debug = some d → d.printToConsole = some "true" →
      d.printDelayInSeconds = some q → 0 < q →
      loadDebugMode sdf = .ok (true, some q)) := by
  refine ⟨?_, ?_, ?_, ?_, ?_, ?_⟩
  · intro h
    simp [loadDebugMode, h]
  · intro h hp
    simp [loadDebugMode, h, hp]
  · intro h hp hne
    simp [loadDebugMode, h, hp, if_neg hne]
  · intro h hp hd
    simp [loadDebugMode, h, hp, hd]
  · intro h hp hd hle
    simp [loadDebugMode, h, hp, hd, hle]
  · intro h hp hd hpos
    simp [loadDebugMode, h, hp, hd, not_le.mpr hpos]

/-- Witness for C8: an inactive debug block with a negative delay loads
fine (the delay is never consulted), and an active block without a delay
defaults to three seconds. -/
theorem C8_debug_delay_only_when_active_witness :
    loadDebugMode { emptySdf with debug := some ⟨some "false", some (-1)⟩ } =
      .ok (false, none) ∧
    loadDebugMode { emptySdf with debug := some ⟨some "true", none⟩ } =
      .ok (true, some 3) :=
  ⟨(C8_debug_delay_only_when_active
      { emptySdf with debug := some ⟨some "false", some (-1)⟩ }
      ⟨some "false", some (-1)⟩ "false" 0).2.2.1 rfl rfl (by decide),
   (C8_debug_delay_only_when_active
      { emptySdf with debug := some ⟨some "true", none⟩ }
      ⟨some "true", none⟩ "true" 0).2.2.2.1 rfl rfl rfl⟩

/-- Unfolding a successful `Except` bind into its two successful steps. -/
theorem except_bind_ok {ε α β : Type} {x : Except ε α} {f : α → Except ε β}
    {b : β} (h : (x >>= f) = .ok b) : ∃ a, x = .ok a ∧ f a = .ok b := by
  cases x with
  | error e => simp [Bind.bind, Except.bind] at h
  | ok a => exact ⟨a, rfl, h⟩

/-- A valid settings object has a positive timestep and ordered limits. -/
theorem validB_iff (s : PIDSettings) :
    s.validB = true ↔ 0 < s.dt ∧ s.min ≤ s.max := by
  simp [PIDSettings.validB]

/-- A successful `loadJoint` means the tag was present and its joint
resolved on the model. -/
theorem loadJoint_ok {model : GzModel} {tag : String} {tv : Option String}
    {j : String} (h : loadJoint model tag tv = .ok j) :
    tv = some j ∧ j ∈ model.joints := by
  unfold loadJoint at h
  cases tv with
  | none => simp at h
  | some n =>
    by_cases hn : n ∈ model.joints
    · simp only [hn, if_true] at h
      obtain rfl := Except.ok.inj h
      exact ⟨rfl, hn⟩
    · simp [hn] at h

/-- A successful `loadSubscriptionTopic` means the tag was present. -/
theorem loadSubscriptionTopic_ok {tag : String} {tv : Option String}
    {t : String} (h : loadSubscriptionTopic tag tv = .ok t) :
    tv = some t := by
  unfold loadSubscriptionTopic at h
  cases tv with
  | none => simp at h
  | some v =>
    injection h with h
    subst h
    rfl

/-- A successful `loadUpdatePeriod` returns a positive period that is the
reciprocal of the (defaulted) update rate. -/
theorem loadUpdatePeriod_ok {sdf : SdfConfig} {up : ℚ}
    (h : loadUpdatePeriod sdf = .ok up) :
    0 < up ∧ ((sdf.updateRate = none ∧ up = 1 / 1000) ∨
      ∃ r, sdf.updateRate = some r ∧ 0 < r ∧ up = 1 / r) := by
  unfold loadUpdatePeriod at h
  cases hr : sdf.updateRate with
  | none =>
    rw [hr] at h
    injection h with h
    subst h
    exact ⟨by norm_num, Or.inl ⟨rfl, rfl⟩⟩
  | some r =>
    rw [hr] at h
    by_cases hle : r ≤ 0
    · simp [hle] at h
    · simp only [hle, if_false] at h
      obtain rfl := Except.ok.inj h
      have hpos : 0 < r := not_le.mp hle
      exact ⟨one_div_pos.mpr hpos, Or.inr ⟨r, rfl, hpos, rfl⟩⟩

/-- A successful `loadPIDSettings` copies the update period into `dt`. -/
theorem loadPIDSettings_ok_dt {sdf : SdfConfig} {up : ℚ} {tag : String}
    {s : PIDSettings} (h : loadPIDSettings sdf up tag = .ok s) :
    s.dt = up := by
  unfold loadPIDSettings at h
  split_ifs at h with hbad
  simp only [Except.ok.injEq] at h
  rw [← h]

/-- With the wrist force-limits tag present, a successful
`loadPIDSettings` for the wrist copies its pair into the clamp. -/
theorem loadPIDSettings_wrist_limits {sdf : SdfConfig} {up lo hi : ℚ}
    {s : PIDSettings} (hfl : sdf.wristForceLimits = some (lo, hi))
    (h : loadPIDSettings sdf up "wrist" = .ok s) :
    s.min = lo ∧ s.max = hi := by
  unfold loadPIDSettings SdfConfig.forceLimitsElement at h
  rw [if_neg (by decide), if_pos rfl, hfl] at h
  injection h with h
  subst h
  exact ⟨rfl, rfl⟩

/-- With the finger force-limits tag present, a successful
`loadPIDSettings` for the fingers copies its pair into the clamp. -/
theorem loadPIDSettings_finger_limits {sdf : SdfConfig} {up lo hi : ℚ}
    {s : PIDSettings} (hfl : sdf.fingerForceLimits = some (lo, hi))
    (h : loadPIDSettings sdf up "finger" = .ok s) :
    s.min = lo ∧ s.max = hi := by
  unfold loadPIDSettings SdfConfig.forceLimitsElement at h
  rw [if_neg (by decide), if_neg (by decide), hfl] at h
  injection h with h
  subst h
  exact ⟨rfl, rfl⟩

/-- A successful `GripperManager.create` means both settings objects were
valid, and the manager holds exactly those settings. -/
theorem create_ok {n : GripperJointNames} {w f : PIDSettings}
    {m : GripperManager} (h : GripperManager.create n w f = .ok m) :
    w.validB = true ∧ f.validB = true ∧
    m.wristSettings = w ∧ m.fingerSettings = f := by
  unfold GripperManager.create at h
  cases hw : w.validB <;> cases hf : f.validB <;> simp [hw, hf] at h
  exact ⟨rfl, rfl, by rw [← h], by rw [← h]⟩

/-- Anatomy of a successful `GripperPlugin.Load`: every mandatory tag was
present and resolvable, both settings objects were accepted by the
manager, and the loaded manager's settings are exactly the ones produced
by `loadPIDSettings` from a successful `loadUpdatePeriod`. -/
theorem load_ok_anatomy {model : GzModel} {sdf : SdfConfig}
    {lp : LoadedPlugin} (h : GripperPlugin.Load model sdf = .ok lp) :
    (∃ up, loadUpdatePeriod sdf = .ok up ∧
      loadPIDSettings sdf up "wrist" = .ok lp.manager.wristSettings ∧
      loadPIDSettings sdf up "finger" = .ok lp.manager.fingerSettings) ∧
    (∃ n, sdf.wristJoint = some n ∧ n ∈ model.joints) ∧
    (∃ n, sdf.leftFingerJoint = some n ∧ n ∈ model.joints) ∧
    (∃ n, sdf.rightFingerJoint = some n ∧ n ∈ model.joints) ∧
    (∃ t, sdf.wristTopic = some t) ∧
    (∃ t, sdf.fingerTopic = some t) ∧
    lp.manager.wristSettings.validB = true ∧
    lp.manager.fingerSettings.validB = true := by
  unfold GripperPlugin.Load at h
  obtain ⟨dbg, hdbg, h⟩ := except_bind_ok h
  obtain ⟨up, hup, h⟩ := except_bind_ok h
  obtain ⟨wj, hwj, h⟩ := except_bind_ok h
  obtain ⟨lj, hlj, h⟩ := except_bind_ok h
  obtain ⟨rj, hrj, h⟩ := except_bind_ok h
  obtain ⟨w, hw, h⟩ := except_bind_ok h
  obtain ⟨f, hf, h⟩ := except_bind_ok h
  obtain ⟨mgr, hmgr, h⟩ := except_bind_ok h
  obtain ⟨wt, hwt, h⟩ := except_bind_ok h
  obtain ⟨ft, hft, h⟩ := except_bind_ok h
  obtain rfl := Except.ok.inj h
  obtain ⟨hwv, hfv, hmw, hmf⟩ := create_ok hmgr
  obtain ⟨hwjt, hwjm⟩ := loadJoint_ok hwj
  obtain ⟨hljt, hljm⟩ := loadJoint_ok hlj
  obtain ⟨hrjt, hrjm⟩ := loadJoint_ok hrj
  refine ⟨⟨up, hup, ?_, ?_⟩, ⟨wj, hwjt, hwjm⟩, ⟨lj, hljt, hljm⟩,
    ⟨rj, hrjt, hrjm⟩, ⟨wt, loadSubscriptionTopic_ok hwt⟩,
    ⟨ft, loadSubscriptionTopic_ok hft⟩, ?_, ?_⟩
  · show loadPIDSettings sdf up "wrist" = .ok mgr.wristSettings
    rw [hmw]
    exact hw
  · show loadPIDSettings sdf up "finger" = .ok mgr.fingerSettings
    rw [hmf]
    exact hf
  · show mgr.wristSettings.validB = true
    rw [hmw]
    exact hwv
  · show mgr.fingerSettings.validB = true
    rw [hmf]
    exact hfv

/-- Sample Gazebo model with three resolvable joints. -/
def sampleModel : GzModel := ⟨"rover", ["wrist_j", "left_j", "right_j"]⟩

/-- A sample loaded-plugin value, used to instantiate witnesses. -/
def sampleLoaded : LoadedPlugin :=
  { isDebuggingModeActive := false, debugUpdatePeriod := none,
    updatePeriod := 1, wristJointName := "wrist_j",
    leftFingerJointName := "left_j", rightFingerJointName := "right_j",
    manager := sampleManager, wristTopic := "t1", fingerTopic := "t2" }

/-- C9: a missing mandatory tag (`wristJoint`, `leftFingerJoint`,
`rightFingerJoint`, `wristTopic`, `fingerTopic`) or an unresolvable joint
makes loading emit an error naming the offending tag or joint and abort:
`loadJoint` and `loadSubscriptionTopic` return the naming error, and no
such configuration ever yields a loaded (running) plugin. -/
theorem C9_fatal_configuration_aborts_load (model : GzModel)
    (sdf : SdfConfig) (tag name : String) :
    (loadJoint model tag none = .error (.missingTag tag)) ∧
    (name ∉ model.joints →
      loadJoint model tag (some name) = .error (.unresolvableJoint name)) ∧
    (loadSubscriptionTopic tag none = .error (.missingTag tag)) ∧
    ((sdf.wristJoint = none ∨ sdf.leftFingerJoint = none ∨
      sdf.rightFingerJoint = none ∨ sdf.wristTopic = none ∨
      sdf.fingerTopic = none ∨
      (∃ n, sdf.wristJoint = some n ∧ n ∉ model.joints) ∨
      (∃ n, sdf.leftFingerJoint = some n ∧ n ∉ model.joints) ∨
      (∃ n, sdf.rightFingerJoint = some n ∧ n ∉ model.joints)) →
      ∀ lp, GripperPlugin.Load model sdf ≠ .ok lp) := by
  refine ⟨rfl, ?_, rfl, ?_⟩
  · intro hn
    simp [loadJoint, hn]
  · intro hbad lp hok
    obtain ⟨-, ⟨nw, hnw, hnwm⟩, ⟨nl, hnl, hnlm⟩, ⟨nr, hnr, hnrm⟩,
      ⟨tw, htw⟩, ⟨tf, htf⟩, -, -⟩ := load_ok_anatomy hok
    rcases hbad with h | h | h | h | h | ⟨n, hn, hm⟩ | ⟨n, hn, hm⟩ |
      ⟨n, hn, hm⟩
    · rw [h] at hnw
      exact Option.noConfusion hnw
    · rw [h] at hnl
      exact Option.noConfusion hnl
    · rw [h] at hnr
      exact Option.noConfusion hnr
    · rw [h] at htw
      exact Option.noConfusion htw
    · rw [h] at htf
      exact Option.noConfusion htf
    · rw [hn] at hnw
      exact hm (Option.some.inj hnw ▸ hnwm)
    · rw [hn] at hnl
      exact hm (Option.some.inj hnl ▸ hnlm)
    · rw [hn] at hnr
      exact hm (Option.some.inj hnr ▸ hnrm)

/-- Witness for C9: an unresolvable joint name is rejected citing the
joint, and a configuration with no `wristJoint` tag never loads. -/
theorem C9_fatal_configuration_aborts_load_witness :
    loadJoint sampleModel "wristJoint" (some "ghost") =
      .error (.unresolvableJoint "ghost") ∧
    GripperPlugin.Load sampleModel emptySdf ≠ .ok sampleLoaded :=
  ⟨(C9_fatal_configuration_aborts_load sampleModel emptySdf
      "wristJoint" "ghost").2.1 (by decide),
   (C9_fatal_configuration_aborts_load sampleModel emptySdf
      "wristJoint" "ghost").2.2.2 (Or.inl rfl) sampleLoaded⟩

/-- C4: constructing the `GripperManager` fails fast whenever either
supplied `PIDSettings` is invalid (`dt ≤ 0` or `min > max`); in
particular a configuration whose wrist or finger force-limits pair has
`min > max` never yields a loaded (running) controller. -/
theorem C4_manager_construction_fails_fast (n : GripperJointNames)
    (w f : PIDSettings) (model : GzModel) (sdf : SdfConfig) (lo hi : ℚ) :
    ((¬(0 < w.dt ∧ w.min ≤ w.max) ∨ ¬(0 < f.dt ∧ f.min ≤ f.max)) →
      ∃ e, GripperManager.create n w f = .error e) ∧
    (sdf.wristForceLimits = some (lo, hi) → hi < lo →
      ∀ lp, GripperPlugin.Load model sdf ≠ .ok lp) ∧
    (sdf.fingerForceLimits = some (lo, hi) → hi < lo →
      ∀ lp, GripperPlugin.Load model sdf ≠ .ok lp) := by
  refine ⟨?_, ?_, ?_⟩
  · intro hbad
    unfold GripperManager.create
    by_cases hw : w.validB
    · have hf : f.validB = false := by
        rcases hbad with hb | hb
        · exact absurd ((validB_iff w).mp hw) hb
        · rcases Bool.eq_false_or_eq_true f.validB with hfb | hfb
          · exact absurd ((validB_iff f).mp hfb) hb
          · exact hfb
      rw [hw, hf]
      exact ⟨.invalidSettings f, rfl⟩
    · rw [Bool.not_eq_true] at hw
      rw [hw]
      exact ⟨.invalidSettings w, rfl⟩
  · intro hfl hlt lp hok
    obtain ⟨⟨up, hup, hwps, hfps⟩, -, -, -, -, -, hwv, -⟩ :=
      load_ok_anatomy hok
    obtain ⟨hmin, hmax⟩ := loadPIDSettings_wrist_limits hfl hwps
    have := ((validB_iff _).mp hwv).2
    rw [hmin, hmax] at this
    linarith
  · intro hfl hlt lp hok
    obtain ⟨⟨up, hup, hwps, hfps⟩, -, -, -, -, -, -, hfv⟩ :=
      load_ok_anatomy hok
    obtain ⟨hmin, hmax⟩ := loadPIDSettings_finger_limits hfl hfps
    have := ((validB_iff _).mp hfv).2
    rw [hmin, hmax] at this
    linarith

/-- PID settings whose force clamp is inverted (`min > max`). -/
def invertedSettings : PIDSettings :=
  { Kp := 1, Ki := 0, Kd := 0, dt := 1, min := 10, max := -10 }

/-- Witness for C4: inverted force limits are rejected by the
constructor, and a configuration with an inverted finger force-limits
pair never loads. -/
theorem C4_manager_construction_fails_fast_witness :
    (∃ e, GripperManager.create sampleNames invertedSettings
      sampleSettings = .error e) ∧
    GripperPlugin.Load sampleModel
      { emptySdf with fingerForceLimits := some (10, -10) } ≠
      .ok sampleLoaded :=
  ⟨(C4_manager_construction_fails_fast sampleNames invertedSettings
      sampleSettings sampleModel emptySdf 10 (-10)).1
      (Or.inl (by norm_num [invertedSettings])),
   (C4_manager_construction_fails_fast sampleNames invertedSettings
      sampleSettings sampleModel
      { emptySdf with fingerForceLimits := some (10, -10) } 10 (-10)).2.2
      rfl (by norm_num) sampleLoaded⟩

/-- C10: every settings object produced by `loadPIDSettings` has
`dt` equal to the update period, which a successful `loadUpdatePeriod`
makes `1/updateRate` (rate defaulted to 1000) — positive, since loading
aborts on `updateRate ≤ 0`.  Hence both settings objects inside any
successfully loaded manager have `dt > 0`, so the `dt` division in the
PID compute step is never a division by zero. -/
theorem C10_dt_positive_no_division_by_zero (sdf : SdfConfig) (up : ℚ)
    (tag : String) (s : PIDSettings) (model : GzModel)
    (lp : LoadedPlugin) :
    (loadUpdatePeriod sdf = .ok up →
      0 < up ∧ ((sdf.updateRate = none ∧ up = 1 / 1000) ∨
        ∃ r, sdf.updateRate = some r ∧ 0 < r ∧ up = 1 / r)) ∧
    (loadPIDSettings sdf up tag = .ok s → s.dt = up) ∧
    (GripperPlugin.Load model sdf = .ok lp →
      0 < lp.manager.wristSettings.dt ∧
      0 < lp.manager.fingerSettings.dt ∧
      lp.manager.wristSettings.dt ≠ 0 ∧
      lp.manager.fingerSettings.dt ≠ 0) := by
  refine ⟨loadUpdatePeriod_ok, loadPIDSettings_ok_dt, ?_⟩
  intro hok
  obtain ⟨⟨u, hu, hwps, hfps⟩, -⟩ := load_ok_anatomy hok
  have hupos : 0 < u := (loadUpdatePeriod_ok hu).1
  have h1 : lp.manager.wristSettings.dt = u := loadPIDSettings_ok_dt hwps
  have h2 : lp.manager.fingerSettings.dt = u := loadPIDSettings_ok_dt hfps
  rw [h1, h2]
  exact ⟨hupos, hupos, ne_of_gt hupos, ne_of_gt hupos⟩

/-- Witness for C10: the defaulted update period `1/1000` is positive and
the finger settings loaded from an empty document carry it as `dt`. -/
theorem C10_dt_positive_no_division_by_zero_witness :
    (0 < (1 / 1000 : ℚ) ∧ ((emptySdf.updateRate = none ∧
        (1 / 1000 : ℚ) = 1 / 1000) ∨
      ∃ r, emptySdf.updateRate = some r ∧ 0 < r ∧ (1 / 1000 : ℚ) = 1 / r)) ∧
    ({ Kp := 5/2, Ki := 0, Kd := 0, dt := 1 / 1000, min := -10,
       max := 10 : PIDSettings }).dt = 1 / 1000 :=
  ⟨(C10_dt_positive_no_division_by_zero emptySdf (1 / 1000) "finger"
      sampleSettings sampleModel sampleLoaded).1 rfl,
   (C10_dt_positive_no_division_by_zero emptySdf (1 / 1000) "finger"
      { Kp := 5/2, Ki := 0, Kd := 0, dt := 1 / 1000, min := -10, max := 10 }
      sampleModel sampleLoaded).2.1 rfl⟩
